import Mathlib

/-!
# Kong upstream and target resources

A shallow embedding of `kong/resource_kong_upstream.go` and
`kong/resource_kong_target.go`: the eight resource functions (Create, Read,
Update, Delete of an upstream and of a target), the two helpers that move a
record between the resource data and the wire structs, and the requests the
functions build with the sling client.

Conventions of the embedding.

* A resource function takes the package `fmt`, the resource data `d` and the
  client `m` (the `meta` argument) and returns an `Outcome`: the returned
  error, the resource data after the call, and the requests issued, oldest
  first.
* The libraries are parameters. `Fmt.Sprintf` is the text `fmt` renders from a
  format and its operands; an error built by `fmt.Errorf` is that text.
  `Client.resolve` is the URL that method `Path` of sling leaves in the
  request, given the URL it holds and a reference. One round trip
  (`ReceiveSuccess`) maps the requests already issued in this call and the
  request to send to a `Received` value: the error text when the round trip
  failed, the response status, and the value left in the success struct.
  Nothing is assumed about any of them; what a theorem needs of a library is
  among its hypotheses.
* Go `int` fields are `Int`; no arithmetic is done on them.
-/

namespace Kong

/-! ## net/http constants and the response fields the code reads -/

/-- Constant `http.StatusOK`. -/
def StatusOK : Int := 200
/-- Constant `http.StatusCreated`. -/
def StatusCreated : Int := 201
/-- Constant `http.StatusNoContent`. -/
def StatusNoContent : Int := 204
/-- Constant `http.StatusNotFound`. -/
def StatusNotFound : Int := 404
/-- Constant `http.StatusConflict`. -/
def StatusConflict : Int := 409

/-- The two fields of `http.Response` the resource functions read. -/
structure Response where
  StatusCode : Int
  Status : String
deriving DecidableEq, Repr

/-! ## Wire structs -/

/-- Struct `Upstream` of resource_kong_upstream.go. -/
structure Upstream where
  ID : String
  Name : String
  Slots : Int
deriving DecidableEq, Repr

/-- Struct `TargetRequest` of resource_kong_target.go. -/
structure TargetRequest where
  ID : String
  Target : String
  Weight : Int
  Upstream : String
deriving DecidableEq, Repr

/-- Struct `TargetResponse`; `Upstream` is the JSON field `upstream_id`. -/
structure TargetResponse where
  ID : String
  Target : String
  Weight : Int
  Upstream : String
deriving DecidableEq, Repr

/-- Struct `targetQuery`, the query parameters of the filtered listing. -/
structure targetQuery where
  ID : String
  Target : String
  Weight : Int
deriving DecidableEq, Repr

/-- Struct `Targets`, the listing decoded by the target read. -/
structure Targets where
  Total : Int
  Data : List TargetResponse
deriving DecidableEq, Repr

/-! ## Resource data -/

/-- Resource data of the upstream schema: `id`, `name`, `slots`. -/
structure UpstreamData where
  id : String
  name : String
  slots : Int
deriving DecidableEq, Repr

/-- Resource data of the target schema: `id`, `target`, `weight`, `upstream`. -/
structure TargetData where
  id : String
  target : String
  weight : Int
  upstream : String
deriving DecidableEq, Repr

/-- Call `d.GetOk("id")` on upstream data: the value, and whether it is set to
a non-zero value. -/
def UpstreamData.GetOkId (d : UpstreamData) : String × Bool := (d.id, d.id != "")

/-- Call `d.GetOk("id")` on target data. -/
def TargetData.GetOkId (d : TargetData) : String × Bool := (d.id, d.id != "")

/-- Call `d.SetId(v)` on upstream data. -/
def UpstreamData.SetId (d : UpstreamData) (v : String) : UpstreamData := { d with id := v }

/-- Call `d.SetId(v)` on target data. -/
def TargetData.SetId (d : TargetData) (v : String) : TargetData := { d with id := v }

/-! ## Errors -/

/-- An operand handed to `fmt.Errorf` after the format. The one call with
operands passes the target request and the resource data. -/
inductive Operand where
  | targetRequest (t : TargetRequest)
  | resourceData (d : TargetData)
deriving DecidableEq, Repr

/-- Package `fmt`, a parameter: `Sprintf format operands` is the text the
package renders from a format string and the operands after it, verbs
interpreted. -/
structure Fmt where
  Sprintf : String → List Operand → String

/-- Go `error`: `none` is nil, `some text` an error whose message is `text`. -/
abbrev GoError := Option String

/-- Call `fmt.Errorf(format, operands...)`: an error whose message is the
rendering of the format. -/
def Fmt.Errorf (fmt : Fmt) (format : String) (operands : List Operand) : GoError :=
  some (fmt.Sprintf format operands)

/-! ## The sling client and its request builder -/

/-- HTTP methods the builder sets. -/
inductive Method where
  | GET
  | POST
  | PATCH
  | DELETE
deriving DecidableEq, Repr

/-- The value handed to `BodyJSON`. -/
inductive JSONBody where
  | upstream (u : Upstream)
  | target (t : TargetRequest)
deriving DecidableEq, Repr

/-- A request under construction: method, URL, JSON body and query struct. -/
structure Request where
  method : Method
  rawURL : String
  body : Option JSONBody
  query : Option targetQuery
deriving DecidableEq, Repr

/-- What `ReceiveSuccess(successV)` hands back: `err` is the text of the
returned error (`none` for nil), `resp` the response, `successV` the value
left in the success struct. -/
structure Received (α : Type) where
  resp : Response
  err : Option String
  successV : α

/-- The sling client behind `meta`, a parameter. `rawURL` is its base URL.
`resolve url ref` is the URL method `Path` leaves in a request that holds
`url` when it is given the reference `ref`: the reference resolved against
`url`, or `url` itself when one of the two does not parse. The four other
fields are one round trip per type of success struct; their first argument
lists the requests already issued in the current call, oldest first. -/
structure Client where
  rawURL : String
  resolve : String → String → String
  receiveNil : List Request → Request → Received Unit
  receiveUpstream : List Request → Request → Received Upstream
  receiveTarget : List Request → Request → Received TargetResponse
  receiveTargets : List Request → Request → Received Targets

/-- Call `sling.New()`: a copy of the client, a GET of its base URL with no
body and no query. -/
def Client.New (m : Client) : Request :=
  { method := Method.GET, rawURL := m.rawURL, body := none, query := none }

/-- Method `Path`: replaces the URL by what the client resolves. -/
def Client.Path (m : Client) (s : Request) (path : String) : Request :=
  { s with rawURL := m.resolve s.rawURL path }

/-- Method `Get`: sets the method and extends the path. -/
def Client.Get (m : Client) (s : Request) (pathURL : String) : Request :=
  m.Path { s with method := Method.GET } pathURL

/-- Method `Post`: sets the method and extends the path. -/
def Client.Post (m : Client) (s : Request) (pathURL : String) : Request :=
  m.Path { s with method := Method.POST } pathURL

/-- Method `Patch`: sets the method and extends the path. -/
def Client.Patch (m : Client) (s : Request) (pathURL : String) : Request :=
  m.Path { s with method := Method.PATCH } pathURL

/-- Method `Delete`: sets the method and extends the path. -/
def Client.Delete (m : Client) (s : Request) (pathURL : String) : Request :=
  m.Path { s with method := Method.DELETE } pathURL

/-- Method `BodyJSON`: sets the JSON body. -/
def Request.BodyJSON (s : Request) (b : JSONBody) : Request :=
  { s with body := some b }

/-- Method `QueryStruct`: sets the query struct. -/
def Request.QueryStruct (s : Request) (q : targetQuery) : Request :=
  { s with query := some q }

/-- Result of a resource function: the returned error, the resource data
after the call and the requests issued, oldest first. -/
structure Outcome (D : Type) where
  err : GoError
  d : D
  requests : List Request

/-! ## resource_kong_upstream.go -/

/-- Function `getUpstreamFromResourceData`. -/
def getUpstreamFromResourceData (d : UpstreamData) : Upstream :=
  let upstream : Upstream := { ID := "", Name := d.name, Slots := d.slots }
  if d.GetOkId.2 then { upstream with ID := d.GetOkId.1 } else upstream

/-- Function `setUpstreamToResourceData`. -/
def setUpstreamToResourceData (d : UpstreamData) (upstream : Upstream) : UpstreamData :=
  let d1 := d.SetId upstream.ID
  let d2 := { d1 with name := upstream.Name }
  { d2 with slots := upstream.Slots }

/-- Function `resourceKongUpstreamCreate`; the request is
`sling.New().BodyJSON(upstream).Post("upstreams/")`. -/
def resourceKongUpstreamCreate (fmt : Fmt) (d : UpstreamData) (m : Client) :
    Outcome UpstreamData :=
  let upstream := getUpstreamFromResourceData d
  let req := m.Post (m.New.BodyJSON (JSONBody.upstream upstream)) "upstreams/"
  let r := m.receiveUpstream [] req
  match r.err with
  | some e => ⟨fmt.Errorf ("error while creating upstream: " ++ e) [], d, [req]⟩
  | none =>
    if r.resp.StatusCode = StatusConflict then
      ⟨fmt.Errorf "409 Conflict - use terraform import to manage this upstream." [], d, [req]⟩
    else if r.resp.StatusCode ≠ StatusCreated then
      ⟨fmt.Errorf ("unexpected status code received: " ++ r.resp.Status) [], d, [req]⟩
    else
      ⟨none, setUpstreamToResourceData d r.successV, [req]⟩

/-- Function `resourceKongUpstreamRead`; the request is
`sling.New().Path("upstreams/").Get(id)`. -/
def resourceKongUpstreamRead (fmt : Fmt) (d : UpstreamData) (m : Client) :
    Outcome UpstreamData :=
  let id := d.id
  let req := m.Get (m.Path m.New "upstreams/") id
  let r := m.receiveUpstream [] req
  match r.err with
  | some e => ⟨fmt.Errorf ("error while reading upstream: " ++ e) [], d, [req]⟩
  | none =>
    if r.resp.StatusCode = StatusNotFound then
      ⟨none, d.SetId "", [req]⟩
    else if r.resp.StatusCode ≠ StatusOK then
      ⟨fmt.Errorf ("unexpected status code received: " ++ r.resp.Status) [], d, [req]⟩
    else
      ⟨none, setUpstreamToResourceData d r.successV, [req]⟩

/-- Function `resourceKongUpstreamUpdate`; the request is
`sling.New().BodyJSON(upstream).Patch("upstreams/").Path(upstream.ID)`. -/
def resourceKongUpstreamUpdate (fmt : Fmt) (d : UpstreamData) (m : Client) :
    Outcome UpstreamData :=
  let upstream := getUpstreamFromResourceData d
  let req := m.Path (m.Patch (m.New.BodyJSON (JSONBody.upstream upstream)) "upstreams/")
    upstream.ID
  let r := m.receiveUpstream [] req
  match r.err with
  | some e => ⟨fmt.Errorf ("error while updating upstream" ++ e) [], d, [req]⟩
  | none =>
    if r.resp.StatusCode ≠ StatusOK then
      ⟨fmt.Errorf ("unexpected status code received: " ++ r.resp.Status) [], d, [req]⟩
    else
      ⟨none, setUpstreamToResourceData d r.successV, [req]⟩

/-- Function `resourceKongUpstreamDelete`; the request is
`sling.New().Delete("upstreams/").Path(id)`. -/
def resourceKongUpstreamDelete (fmt : Fmt) (d : UpstreamData) (m : Client) :
    Outcome UpstreamData :=
  let id := d.id
  let req := m.Path (m.Delete m.New "upstreams/") id
  let r := m.receiveNil [] req
  match r.err with
  | some e => ⟨fmt.Errorf ("error while deleting upstream" ++ e) [], d, [req]⟩
  | none =>
    if r.resp.StatusCode ≠ StatusNoContent then
      ⟨fmt.Errorf ("unexpected status code received: " ++ r.resp.Status) [], d, [req]⟩
    else
      ⟨none, d, [req]⟩

/-! ## resource_kong_target.go -/

/-- Function `getTargetFromResourceData`. -/
def getTargetFromResourceData (d : TargetData) : TargetRequest :=
  let target : TargetRequest :=
    { ID := "", Target := d.target, Upstream := d.upstream, Weight := d.weight }
  if d.GetOkId.2 then { target with ID := d.GetOkId.1 } else target

/-- Function `setTargetToResourceData`. -/
def setTargetToResourceData (d : TargetData) (target : TargetResponse) : TargetData :=
  let d1 := d.SetId target.ID
  let d2 := { d1 with target := target.Target }
  let d3 := { d2 with weight := target.Weight }
  { d3 with upstream := target.Upstream }

/-- Function `resourceKongTargetCreate`; the request is
`sling.New().BodyJSON(target).Path("upstreams/" + target.Upstream + "/").Post("targets")`. -/
def resourceKongTargetCreate (fmt : Fmt) (d : TargetData) (m : Client) : Outcome TargetData :=
  let target := getTargetFromResourceData d
  let req := m.Post (m.Path (m.New.BodyJSON (JSONBody.target target))
    ("upstreams/" ++ target.Upstream ++ "/")) "targets"
  let r := m.receiveTarget [] req
  match r.err with
  | some e => ⟨fmt.Errorf ("error while creating target: " ++ e) [], d, [req]⟩
  | none =>
    if r.resp.StatusCode ≠ StatusCreated then
      ⟨fmt.Errorf ("unexpected status code received: " ++ r.resp.Status) [], d, [req]⟩
    else
      ⟨none, setTargetToResourceData d r.successV, [req]⟩

/-- Function `resourceKongTargetRead`; the request is
`sling.New().Path("upstreams/" + target.Upstream + "/targets/active/").QueryStruct(query)`. -/
def resourceKongTargetRead (fmt : Fmt) (d : TargetData) (m : Client) : Outcome TargetData :=
  let target := getTargetFromResourceData d
  let query : targetQuery := { ID := target.ID, Target := "", Weight := 0 }
  let req := (m.Path m.New ("upstreams/" ++ target.Upstream ++ "/targets/active/")).QueryStruct
    query
  let r := m.receiveTargets [] req
  let targets := r.successV
  match r.err with
  | some e => ⟨fmt.Errorf ("error while reading target: " ++ e) [], d, [req]⟩
  | none =>
    if h : r.resp.StatusCode = StatusNotFound ∨ targets.Total ≤ 0 ∨ targets.Data.length ≤ 0 then
      ⟨none, d.SetId "", [req]⟩
    else if r.resp.StatusCode ≠ StatusOK then
      ⟨fmt.Errorf ("unexpected status code received: " ++ r.resp.Status) [], d, [req]⟩
    else
      ⟨none, setTargetToResourceData d (targets.Data.get ⟨0, by omega⟩), [req]⟩

/-- Function `resourceKongTargetUpdate`: a delete followed by a create. The
requests are
`sling.New().Delete("upstreams/" + target.Upstream + "/targets/" + target.ID)` and
`sling.New().BodyJSON(target).Path("upstreams/" + target.Upstream + "/").Post("targets")`. -/
def resourceKongTargetUpdate (fmt : Fmt) (d : TargetData) (m : Client) : Outcome TargetData :=
  let target := getTargetFromResourceData d
  let req1 := m.Delete m.New ("upstreams/" ++ target.Upstream ++ "/targets/" ++ target.ID)
  let r1 := m.receiveNil [] req1
  match r1.err with
  | some e => ⟨fmt.Errorf ("error while updating target" ++ e) [], d, [req1]⟩
  | none =>
    if r1.resp.StatusCode ≠ StatusNoContent then
      ⟨fmt.Errorf ("unexpected status code received: " ++ r1.resp.Status) [], d, [req1]⟩
    else
      let req2 := m.Post (m.Path (m.New.BodyJSON (JSONBody.target target))
        ("upstreams/" ++ target.Upstream ++ "/")) "targets"
      let r2 := m.receiveTarget [req1] req2
      match r2.err with
      | some e => ⟨fmt.Errorf ("error while updating target" ++ e) [], d, [req1, req2]⟩
      | none =>
        if r2.resp.StatusCode ≠ StatusNoContent then
          ⟨fmt.Errorf ("unexpected status code received: " ++ r2.resp.Status) [], d,
            [req1, req2]⟩
        else
          ⟨none, setTargetToResourceData d r2.successV, [req1, req2]⟩

/-- Function `resourceKongTargetDelete`; the request is
`sling.New().Delete("upstreams/" + target.Upstream + "/targets/" + target.ID)`. The
unexpected-status error is built with the two operands `target` and `d`. -/
def resourceKongTargetDelete (fmt : Fmt) (d : TargetData) (m : Client) : Outcome TargetData :=
  let target := getTargetFromResourceData d
  let req := m.Delete m.New ("upstreams/" ++ target.Upstream ++ "/targets/" ++ target.ID)
  let r := m.receiveNil [] req
  match r.err with
  | some e => ⟨fmt.Errorf ("error while deleting target" ++ e) [], d, [req]⟩
  | none =>
    if r.resp.StatusCode ≠ StatusNoContent then
      ⟨fmt.Errorf ("unexpected status code received: " ++ r.resp.Status)
        [Operand.targetRequest target, Operand.resourceData d], d, [req]⟩
    else
      ⟨none, d, [req]⟩

/-! ## The requests built and the answers received -/

/-- The request the update and the delete of the target `d` build first. -/
def targetDeleteRequest (m : Client) (d : TargetData) : Request :=
  m.Delete m.New ("upstreams/" ++ d.upstream ++ "/targets/" ++ d.id)

/-- The request the create of the target `d` builds, and the update after
its DELETE. -/
def targetPostRequest (m : Client) (d : TargetData) : Request :=
  m.Post (m.Path (m.New.BodyJSON (JSONBody.target (getTargetFromResourceData d)))
    ("upstreams/" ++ d.upstream ++ "/")) "targets"

/-- The request the read of the target `d` builds. -/
def targetListRequest (m : Client) (d : TargetData) : Request :=
  (m.Path m.New ("upstreams/" ++ d.upstream ++ "/targets/active/")).QueryStruct
    { ID := d.id, Target := "", Weight := 0 }

/-- The request the read of the upstream `d` builds. -/
def upstreamGetRequest (m : Client) (d : UpstreamData) : Request :=
  m.Get (m.Path m.New "upstreams/") d.id

/-- The request the delete of the upstream `d` builds. -/
def upstreamDeleteRequest (m : Client) (d : UpstreamData) : Request :=
  m.Path (m.Delete m.New "upstreams/") d.id

/-- What the client hands back for the DELETE that the update (and the delete)
of the target `d` sends as first request. -/
def targetDeleteAnswer (d : TargetData) (m : Client) : Received Unit :=
  m.receiveNil [] (targetDeleteRequest m d)

/-- What the client hands back for the POST that the update of the target `d`
sends after its DELETE. -/
def targetUpdatePostAnswer (d : TargetData) (m : Client) : Received TargetResponse :=
  m.receiveTarget [targetDeleteRequest m d] (targetPostRequest m d)

/-- What the client hands back for the POST that the create of the target `d`
sends. -/
def targetCreateAnswer (d : TargetData) (m : Client) : Received TargetResponse :=
  m.receiveTarget [] (targetPostRequest m d)

/-- What the client hands back for the filtered listing that the read of the
target `d` requests. -/
def targetReadAnswer (d : TargetData) (m : Client) : Received Targets :=
  m.receiveTargets [] (targetListRequest m d)

/-- What the client hands back for the GET that the read of the upstream `d`
sends. -/
def upstreamReadAnswer (d : UpstreamData) (m : Client) : Received Upstream :=
  m.receiveUpstream [] (upstreamGetRequest m d)

/-- What the client hands back for the DELETE that the delete of the upstream
`d` sends. -/
def upstreamDeleteAnswer (d : UpstreamData) (m : Client) : Received Unit :=
  m.receiveNil [] (upstreamDeleteRequest m d)

/-! ## A sample of package fmt -/

/-- The flag characters a verb may carry. -/
def isFlag (c : Char) : Bool :=
  c == '#' || c == '0' || c == '+' || c == '-' || c == ' '

/-- Rendering of a format when no operand is left: text is copied; a percent
sign takes its flags, width and precision, then `%%` gives a percent sign,
another verb `v` gives `%!v(MISSING)`, and a format that ends before the verb
gives `%!(NOVERB)`. Argument indexes and star widths are not covered. The
first argument bounds the number of steps. -/
def renderVerbs : Nat → List Char → List Char
  | 0, _ => []
  | _, [] => []
  | n + 1, c :: rest =>
    if c = '%' then
      let afterFlags := rest.dropWhile isFlag
      let afterWidth := afterFlags.dropWhile Char.isDigit
      let afterPrec :=
        match afterWidth with
        | p :: more => if p = '.' then more.dropWhile Char.isDigit else afterWidth
        | [] => afterWidth
      match afterPrec with
      | [] => "%!(NOVERB)".toList
      | v :: more =>
        (if v = '%' then ['%'] else "%!".toList ++ v :: "(MISSING)".toList) ++
          renderVerbs n more
    else c :: renderVerbs n rest

/-- The Go type of an operand, as `fmt` prints it. -/
def Operand.typeName : Operand → String
  | Operand.targetRequest _ => "*kong.TargetRequest"
  | Operand.resourceData _ => "*schema.ResourceData"

/-- A sample of `fmt.Sprintf` for the formats of this development, which hold
no verb on purpose: the format rendered by `renderVerbs`, followed, when
operands were passed, by the `%!(EXTRA ...)` report of `fmt` with the types of
the operands (their values are left out). -/
def sampleSprintf (format : String) (operands : List Operand) : String :=
  String.mk (renderVerbs format.length format.toList) ++
    (if operands = [] then ""
     else "%!(EXTRA " ++ ", ".intercalate (operands.map Operand.typeName) ++ ")")

/-- The sample package `fmt`. -/
def sampleFmt : Fmt := { Sprintf := sampleSprintf }

/-! ## A sample of URL resolution -/

/-- Hexadecimal digits. -/
def isHexDigit (c : Char) : Bool :=
  c.isDigit || ('a' ≤ c && c ≤ 'f') || ('A' ≤ c && c ≤ 'F')

/-- Whether a reference holds a percent sign that two hexadecimal digits do
not follow, which `url.Parse` refuses as an invalid URL escape. -/
def badEscape : List Char → Bool
  | [] => false
  | c :: rest =>
    if c = '%' then
      match rest with
      | a :: b :: _ => !(isHexDigit a && isHexDigit b) || badEscape rest
      | _ => true
    else badEscape rest

/-- A sample of what `Path` leaves as URL: the URL unchanged when the
reference has an invalid escape, the reference appended otherwise. Appending
is what the resolution gives at the other references used with it below:
relative paths of letters, digits, hyphens and slashes, resolved against a URL
that ends in a slash. -/
def sampleResolve (url ref : String) : String :=
  if badEscape ref.toList then url else url ++ ref

/-! ## Sample data and clients -/

/-- A round trip that returned no error, with the given status and decoded value. -/
def answered {α : Type} (code : Int) (status : String) (v : α) : Received α :=
  ⟨⟨code, status⟩, none, v⟩

/-- A round trip that returned an error with the given text. -/
def failed {α : Type} (text : String) (v : α) : Received α :=
  ⟨⟨0, ""⟩, some text, v⟩

/-- A client at the base URL `http://kong:8001/` whose answer depends only on
the type of the success struct. -/
def scripted (del : Received Unit) (up : Received Upstream) (tg : Received TargetResponse)
    (ls : Received Targets) : Client :=
  { rawURL := "http://kong:8001/"
    resolve := sampleResolve
    receiveNil := fun _ _ => del
    receiveUpstream := fun _ _ => up
    receiveTarget := fun _ _ => tg
    receiveTargets := fun _ _ => ls }

/-- A target bound to the id `t-old` under the upstream named `svc-a`. -/
def sampleTarget : TargetData :=
  { id := "t-old", target := "10.0.0.2:80", weight := 50, upstream := "svc-a" }

/-- A target not yet created, declared under the upstream named `svc-a`. -/
def freshTarget : TargetData :=
  { id := "", target := "10.0.0.2:80", weight := 50, upstream := "svc-a" }

/-- A target declared under an upstream name that is no valid URL escape. -/
def oddTarget : TargetData :=
  { id := "t-old", target := "10.0.0.2:80", weight := 50, upstream := "%zz" }

/-- An upstream bound to the id `u-1`. -/
def sampleUpstream : UpstreamData := { id := "u-1", name := "svc-a", slots := 100 }

/-- An upstream imported under an id that is no valid URL escape. -/
def oddUpstream : UpstreamData := { id := "%zz", name := "svc-a", slots := 100 }

/-- The target record a server sends back for a new target. -/
def newTarget : TargetResponse :=
  { ID := "t-new", Target := "10.0.0.2:80", Weight := 50, Upstream := "u-1" }

/-- The record the active-targets listing holds for `sampleTarget`. -/
def listedTarget : TargetResponse :=
  { ID := "t-old", Target := "10.0.0.2:80", Weight := 50, Upstream := "u-1" }

/-- The upstream record a server sends back for `sampleUpstream`. -/
def newUpstream : Upstream := { ID := "u-1", Name := "svc-a", Slots := 100 }

/-- The zero `Upstream`: what is left when nothing was decoded. -/
def zeroUpstream : Upstream := { ID := "", Name := "", Slots := 0 }

/-- The zero `TargetResponse`. -/
def zeroTarget : TargetResponse := { ID := "", Target := "", Weight := 0, Upstream := "" }

/-- The zero `Targets`. -/
def zeroTargets : Targets := { Total := 0, Data := [] }

/-- A client in good order: DELETE answers 204, POST answers 201 with the new
record, the listing answers 200 with the one record `listedTarget`, other
upstream requests answer 200 with `newUpstream`. -/
def healthyClient : Client :=
  { rawURL := "http://kong:8001/"
    resolve := sampleResolve
    receiveNil := fun _ _ => answered 204 "204 No Content" ()
    receiveUpstream := fun _ q =>
      if q.method = Method.POST then answered 201 "201 Created" newUpstream
      else answered 200 "200 OK" newUpstream
    receiveTarget := fun _ _ => answered 201 "201 Created" newTarget
    receiveTargets := fun _ _ => answered 200 "200 OK" ⟨1, [listedTarget]⟩ }

/-- Every request answers 500 and nothing is decoded. -/
def brokenClient : Client :=
  scripted (answered 500 "500 Internal Server Error" ())
    (answered 500 "500 Internal Server Error" zeroUpstream)
    (answered 500 "500 Internal Server Error" zeroTarget)
    (answered 500 "500 Internal Server Error" zeroTargets)

/-- Every request answers 404 and nothing is decoded. -/
def goneClient : Client :=
  scripted (answered 404 "404 Not Found" ()) (answered 404 "404 Not Found" zeroUpstream)
    (answered 404 "404 Not Found" zeroTarget) (answered 404 "404 Not Found" zeroTargets)

/-- DELETE answers 204; the POST of a target fails in transport. -/
def createFailsClient : Client :=
  scripted (answered 204 "204 No Content" ()) (answered 200 "200 OK" newUpstream)
    (failed "Post \"http://kong:8001/upstreams/svc-a/targets\": EOF" zeroTarget)
    (answered 200 "200 OK" zeroTargets)

/-- DELETE answers 204; the POST of a target answers 500. -/
def createRefusedClient : Client :=
  scripted (answered 204 "204 No Content" ()) (answered 200 "200 OK" newUpstream)
    (answered 500 "500 Internal Server Error" zeroTarget) (answered 200 "200 OK" zeroTargets)

/-- A server that does not know the URL asked for: DELETE answers 405, the
upstream requests answer 200 with a body that holds none of the fields of an
upstream, the target requests answer 404; nothing is decoded. -/
def strangerClient : Client :=
  scripted (answered 405 "405 Method Not Allowed" ()) (answered 200 "200 OK" zeroUpstream)
    (answered 404 "404 Not Found" zeroTarget) (answered 404 "404 Not Found" zeroTargets)

/-- DELETE answers 204 and the POST of a target answers 204; a 204 has no
body, so nothing is decoded. -/
def emptyAnswerClient : Client :=
  scripted (answered 204 "204 No Content" ()) (answered 200 "200 OK" newUpstream)
    (answered 204 "204 No Content" zeroTarget) (answered 200 "200 OK" ⟨1, [listedTarget]⟩)

/-! ## Helper lemmas -/

theorem getTarget_ID (d : TargetData) : (getTargetFromResourceData d).ID = d.id := by
  unfold getTargetFromResourceData TargetData.GetOkId
  by_cases h : d.id = "" <;> simp [h]

theorem getTarget_Upstream (d : TargetData) :
    (getTargetFromResourceData d).Upstream = d.upstream := by
  unfold getTargetFromResourceData TargetData.GetOkId
  by_cases h : d.id = "" <;> simp [h]

theorem getUpstream_ID (d : UpstreamData) : (getUpstreamFromResourceData d).ID = d.id := by
  unfold getUpstreamFromResourceData UpstreamData.GetOkId
  by_cases h : d.id = "" <;> simp [h]

/-- An error built by `fmt.Errorf` is never nil. -/
theorem Errorf_ne_none (fmt : Fmt) (s : String) (ops : List Operand) :
    fmt.Errorf s ops ≠ none := by
  simp [Fmt.Errorf]

/-- The element at index 0 of a list that starts with `x` is `x`. -/
theorem get_zero_of_cons {α : Type} (l : List α) (h : 0 < l.length) (x : α) (xs : List α)
    (hl : l = x :: xs) : l.get ⟨0, h⟩ = x := by
  subst hl
  rfl

/-- The first request of the target update and delete, as the code builds it. -/
theorem targetDelete_request (m : Client) (d : TargetData) :
    m.Delete m.New ("upstreams/" ++ (getTargetFromResourceData d).Upstream ++ "/targets/" ++
      (getTargetFromResourceData d).ID) = targetDeleteRequest m d := by
  simp [targetDeleteRequest, getTarget_ID, getTarget_Upstream]

/-- The POST request of a target, as the code builds it. -/
theorem targetPost_request (m : Client) (d : TargetData) :
    m.Post (m.Path (m.New.BodyJSON (JSONBody.target (getTargetFromResourceData d)))
      ("upstreams/" ++ (getTargetFromResourceData d).Upstream ++ "/")) "targets" =
    targetPostRequest m d := by
  simp [targetPostRequest, getTarget_Upstream]

/-- The listing request of a target, as the code builds it. -/
theorem targetList_request (m : Client) (d : TargetData) :
    (m.Path m.New ("upstreams/" ++ (getTargetFromResourceData d).Upstream ++
      "/targets/active/")).QueryStruct
      { ID := (getTargetFromResourceData d).ID, Target := "", Weight := 0 } =
    targetListRequest m d := by
  simp [targetListRequest, getTarget_ID, getTarget_Upstream]

/-- The GET request of an upstream, as the code builds it. -/
theorem upstreamGet_request (m : Client) (d : UpstreamData) :
    m.Get (m.Path m.New "upstreams/") d.id = upstreamGetRequest m d := rfl

/-- The DELETE request of an upstream, as the code builds it. -/
theorem upstreamDelete_request (m : Client) (d : UpstreamData) :
    m.Path (m.Delete m.New "upstreams/") d.id = upstreamDeleteRequest m d := rfl

/-- Where `Path` appends the reference, the first request of the target update
and delete is the DELETE of `upstreams/{upstream}/targets/{id}` under the base
URL. -/
theorem targetDeleteRequest_url (m : Client) (d : TargetData)
    (h1 : m.resolve m.rawURL ("upstreams/" ++ d.upstream ++ "/targets/" ++ d.id) =
      m.rawURL ++ ("upstreams/" ++ d.upstream ++ "/targets/" ++ d.id)) :
    targetDeleteRequest m d =
      ⟨Method.DELETE, m.rawURL ++ ("upstreams/" ++ d.upstream ++ "/targets/" ++ d.id),
        none, none⟩ := by
  simp [targetDeleteRequest, Client.Delete, Client.Path, Client.New, h1]

/-- Where `Path` appends the two references, the POST request of a target is
the POST of `upstreams/{upstream}/targets` under the base URL, with the target
as JSON body. -/
theorem targetPostRequest_url (m : Client) (d : TargetData)
    (h2 : m.resolve m.rawURL ("upstreams/" ++ d.upstream ++ "/") =
      m.rawURL ++ ("upstreams/" ++ d.upstream ++ "/"))
    (h3 : m.resolve (m.rawURL ++ ("upstreams/" ++ d.upstream ++ "/")) "targets" =
      m.rawURL ++ ("upstreams/" ++ d.upstream ++ "/") ++ "targets") :
    targetPostRequest m d =
      ⟨Method.POST, m.rawURL ++ ("upstreams/" ++ d.upstream ++ "/") ++ "targets",
        some (JSONBody.target (getTargetFromResourceData d)), none⟩ := by
  simp [targetPostRequest, Client.Post, Client.Path, Client.New, Request.BodyJSON, h2, h3]

/-- Where `Path` appends the two references, the GET request of an upstream is
the GET of `upstreams/{id}` under the base URL. -/
theorem upstreamGetRequest_url (m : Client) (d : UpstreamData)
    (h1 : m.resolve m.rawURL "upstreams/" = m.rawURL ++ "upstreams/")
    (h2 : m.resolve (m.rawURL ++ "upstreams/") d.id = m.rawURL ++ "upstreams/" ++ d.id) :
    upstreamGetRequest m d = ⟨Method.GET, m.rawURL ++ "upstreams/" ++ d.id, none, none⟩ := by
  simp [upstreamGetRequest, Client.Get, Client.Path, Client.New, h1, h2]

/-- Where `Path` appends the two references, the DELETE request of an upstream
is the DELETE of `upstreams/{id}` under the base URL. -/
theorem upstreamDeleteRequest_url (m : Client) (d : UpstreamData)
    (h1 : m.resolve m.rawURL "upstreams/" = m.rawURL ++ "upstreams/")
    (h2 : m.resolve (m.rawURL ++ "upstreams/") d.id = m.rawURL ++ "upstreams/" ++ d.id) :
    upstreamDeleteRequest m d =
      ⟨Method.DELETE, m.rawURL ++ "upstreams/" ++ d.id, none, none⟩ := by
  simp [upstreamDeleteRequest, Client.Delete, Client.Path, Client.New, h1, h2]

/-- The target read as a function of the answer to its listing request. The
element at index 0 is written with a default, which the guard before it makes
irrelevant. -/
theorem targetRead_eq (fmt : Fmt) (d : TargetData) (m : Client) :
    resourceKongTargetRead fmt d m =
      (match (targetReadAnswer d m).err with
       | some e =>
         ⟨fmt.Errorf ("error while reading target: " ++ e) [], d, [targetListRequest m d]⟩
       | none =>
         if (targetReadAnswer d m).resp.StatusCode = StatusNotFound ∨
            (targetReadAnswer d m).successV.Total ≤ 0 ∨
            (targetReadAnswer d m).successV.Data.length ≤ 0 then
           ⟨none, d.SetId "", [targetListRequest m d]⟩
         else if (targetReadAnswer d m).resp.StatusCode ≠ StatusOK then
           ⟨fmt.Errorf ("unexpected status code received: " ++
              (targetReadAnswer d m).resp.Status) [], d, [targetListRequest m d]⟩
         else
           ⟨none,
             setTargetToResourceData d ((targetReadAnswer d m).successV.Data.headD zeroTarget),
             [targetListRequest m d]⟩) := by
  unfold targetReadAnswer
  rw [← targetList_request m d]
  unfold resourceKongTargetRead
  dsimp only
  cases hr : (m.receiveTargets [] ((m.Path m.New ("upstreams/" ++
      (getTargetFromResourceData d).Upstream ++ "/targets/active/")).QueryStruct
      { ID := (getTargetFromResourceData d).ID, Target := "", Weight := 0 })).err with
  | some e => rfl
  | none =>
    dsimp only
    split_ifs with h1 h2
    · rfl
    · rfl
    · have hpos : 0 < (m.receiveTargets [] ((m.Path m.New ("upstreams/" ++
          (getTargetFromResourceData d).Upstream ++ "/targets/active/")).QueryStruct
          { ID := (getTargetFromResourceData d).ID, Target := "", Weight := 0
            })).successV.Data.length := by
        by_contra hneg
        exact h1 (Or.inr (Or.inr (Nat.le_of_not_lt hneg)))
      obtain ⟨x, xs, hd⟩ := List.exists_cons_of_length_pos hpos
      rw [get_zero_of_cons _ _ x xs hd, hd]
      rfl

/-! ## Target update: the status its create step accepts -/

/-- The create step of the update refuses status 201 for every resource data
and client: when the DELETE answered 204 and the POST answered 201, the update
returns the unexpected-status error and leaves the resource data as it was. -/
theorem targetUpdate_refuses_created (fmt : Fmt) (d : TargetData) (m : Client)
    (hdel : (targetDeleteAnswer d m).err = none)
    (hdel204 : (targetDeleteAnswer d m).resp.StatusCode = StatusNoContent)
    (hpost : (targetUpdatePostAnswer d m).err = none)
    (hpost201 : (targetUpdatePostAnswer d m).resp.StatusCode = StatusCreated) :
    (resourceKongTargetUpdate fmt d m).err =
      fmt.Errorf ("unexpected status code received: " ++
        (targetUpdatePostAnswer d m).resp.Status) [] ∧
    (resourceKongTargetUpdate fmt d m).d = d := by
  unfold resourceKongTargetUpdate
  simp only [targetDelete_request, targetPost_request]
  unfold targetDeleteAnswer at hdel hdel204
  unfold targetUpdatePostAnswer at *
  simp only [hdel, hdel204, hpost, hpost201]
  simp [StatusCreated, StatusNoContent]

/-- C1, evaluated at the failing input: the target `sampleTarget` is updated
against a client whose DELETE answers 204 and whose POST answers 201 Created
with the record `newTarget`. The update returns the unexpected-status error
for the line "201 Created", leaves the resource data on the old id and has
issued both requests; the create function accepts the same POST answer and
stores the new record. -/
theorem targetUpdate_created_is_an_error :
    (resourceKongTargetUpdate sampleFmt sampleTarget healthyClient).err
      = some "unexpected status code received: 201 Created" ∧
    (resourceKongTargetUpdate sampleFmt sampleTarget healthyClient).d = sampleTarget ∧
    (resourceKongTargetUpdate sampleFmt sampleTarget healthyClient).requests =
      [⟨Method.DELETE, "http://kong:8001/upstreams/svc-a/targets/t-old", none, none⟩,
       ⟨Method.POST, "http://kong:8001/upstreams/svc-a/targets",
        some (JSONBody.target ⟨"t-old", "10.0.0.2:80", 50, "svc-a"⟩), none⟩] ∧
    (resourceKongTargetCreate sampleFmt sampleTarget healthyClient).err = none ∧
    (resourceKongTargetCreate sampleFmt sampleTarget healthyClient).d
      = ⟨"t-new", "10.0.0.2:80", 50, "u-1"⟩ := by
  decide

/-! ## Target read: unexpected status with an empty listing -/

/-- C2, evaluated at the failing input: the target `sampleTarget` is read
against a client that answers 500 and decodes nothing (total 0, no data). The
read returns no error and clears the id; the upstream read, given the same
status, returns the unexpected-status error and keeps the resource data. -/
theorem targetRead_server_error_reads_as_absent :
    (resourceKongTargetRead sampleFmt sampleTarget brokenClient).err = none ∧
    (resourceKongTargetRead sampleFmt sampleTarget brokenClient).d.id = "" ∧
    (resourceKongUpstreamRead sampleFmt sampleUpstream brokenClient).err
      = some "unexpected status code received: 500 Internal Server Error" ∧
    (resourceKongUpstreamRead sampleFmt sampleUpstream brokenClient).d = sampleUpstream := by
  decide

/-! ## Target update: delete first, create gated on the delete -/

/-- C3, the claim fails: the target is declared under the upstream `%zz`,
which is no valid URL escape, so `Path` keeps the base URL. The update sends
its DELETE to the base URL `http://kong:8001/`, not to
`upstreams/%zz/targets/t-old` under it. -/
theorem targetUpdate_odd_upstream_request :
    (resourceKongTargetUpdate sampleFmt oddTarget strangerClient).requests =
      [⟨Method.DELETE, "http://kong:8001/", none, none⟩] ∧
    (resourceKongTargetUpdate sampleFmt oddTarget strangerClient).requests.head? ≠
      some ⟨Method.DELETE, "http://kong:8001/upstreams/%zz/targets/t-old", none, none⟩ := by
  decide

/-- C3 as amended: the update issues first the DELETE it builds from the
reference `upstreams/{upstream}/targets/{id}`; a POST is among its requests if
and only if that DELETE returned no error with status 204, and then the
requests are exactly that DELETE followed by the POST it builds from the
references `upstreams/{upstream}/` and `targets`; when the DELETE failed (an
error or any other status) the update returns an error and has issued the
DELETE alone. Where `Path` appends these references to the URL, the DELETE
goes to `upstreams/{upstream}/targets/{id}` and the POST to
`upstreams/{upstream}/targets` under the base URL. -/
theorem targetUpdate_delete_then_create (fmt : Fmt) (d : TargetData) (m : Client) :
    (resourceKongTargetUpdate fmt d m).requests.head? = some (targetDeleteRequest m d) ∧
    (targetDeleteRequest m d).method = Method.DELETE ∧
    (targetPostRequest m d).method = Method.POST ∧
    ((∃ q ∈ (resourceKongTargetUpdate fmt d m).requests, q.method = Method.POST) ↔
      ((targetDeleteAnswer d m).err = none ∧
       (targetDeleteAnswer d m).resp.StatusCode = StatusNoContent)) ∧
    (((targetDeleteAnswer d m).err = none ∧
      (targetDeleteAnswer d m).resp.StatusCode = StatusNoContent) →
      (resourceKongTargetUpdate fmt d m).requests =
        [targetDeleteRequest m d, targetPostRequest m d]) ∧
    (¬ ((targetDeleteAnswer d m).err = none ∧
        (targetDeleteAnswer d m).resp.StatusCode = StatusNoContent) →
      (resourceKongTargetUpdate fmt d m).err ≠ none ∧
      (resourceKongTargetUpdate fmt d m).requests = [targetDeleteRequest m d]) ∧
    (m.resolve m.rawURL ("upstreams/" ++ d.upstream ++ "/targets/" ++ d.id) =
        m.rawURL ++ ("upstreams/" ++ d.upstream ++ "/targets/" ++ d.id) →
      targetDeleteRequest m d =
        ⟨Method.DELETE, m.rawURL ++ ("upstreams/" ++ d.upstream ++ "/targets/" ++ d.id),
          none, none⟩) ∧
    (m.resolve m.rawURL ("upstreams/" ++ d.upstream ++ "/") =
        m.rawURL ++ ("upstreams/" ++ d.upstream ++ "/") →
      m.resolve (m.rawURL ++ ("upstreams/" ++ d.upstream ++ "/")) "targets" =
        m.rawURL ++ ("upstreams/" ++ d.upstream ++ "/") ++ "targets" →
      targetPostRequest m d =
        ⟨Method.POST, m.rawURL ++ ("upstreams/" ++ d.upstream ++ "/") ++ "targets",
          some (JSONBody.target (getTargetFromResourceData d)), none⟩) := by
  have hmd : (targetDeleteRequest m d).method = Method.DELETE := rfl
  have hmp : (targetPostRequest m d).method = Method.POST := rfl
  refine ⟨?_, hmd, hmp, ?_, ?_, ?_, targetDeleteRequest_url m d, targetPostRequest_url m d⟩
  all_goals
    unfold resourceKongTargetUpdate
    simp only [targetDelete_request, targetPost_request]
    try unfold targetDeleteAnswer
    generalize m.receiveNil [] _ = r1
    generalize m.receiveTarget _ _ = r2
    obtain ⟨⟨c1, s1⟩, e1, v1⟩ := r1
    obtain ⟨⟨c2, s2⟩, e2, v2⟩ := r2
    cases e1 <;> cases e2 <;> by_cases h1 : c1 = StatusNoContent <;>
      by_cases h2 : c2 = StatusNoContent <;> simp [h1, h2, hmd, hmp, Fmt.Errorf]

/-- Witness for C3: updating `sampleTarget` against the healthy client, whose
`Path` appends the three references, sends the DELETE to
`upstreams/svc-a/targets/t-old` and then the POST to `upstreams/svc-a/targets`
under the base URL. -/
theorem targetUpdate_delete_then_create_witness :
    (resourceKongTargetUpdate sampleFmt sampleTarget healthyClient).requests =
      [targetDeleteRequest healthyClient sampleTarget,
       targetPostRequest healthyClient sampleTarget] ∧
    targetDeleteRequest healthyClient sampleTarget =
      ⟨Method.DELETE, "http://kong:8001/" ++ ("upstreams/" ++ "svc-a" ++ "/targets/" ++ "t-old"),
        none, none⟩ ∧
    targetPostRequest healthyClient sampleTarget =
      ⟨Method.POST, "http://kong:8001/" ++ ("upstreams/" ++ "svc-a" ++ "/") ++ "targets",
        some (JSONBody.target (getTargetFromResourceData sampleTarget)), none⟩ :=
  ⟨(targetUpdate_delete_then_create sampleFmt sampleTarget healthyClient).2.2.2.2.1
      (by decide),
    (targetUpdate_delete_then_create sampleFmt sampleTarget healthyClient).2.2.2.2.2.2.1
      (by decide),
    (targetUpdate_delete_then_create sampleFmt sampleTarget healthyClient).2.2.2.2.2.2.2
      (by decide) (by decide)⟩

/-! ## Target update: what a failure reports -/

/-- C4, the claim fails: one update fails at its delete step and another at
its create step (after a DELETE answered 204), both on the status line
"500 Internal Server Error", and both return the same error. -/
theorem targetUpdate_steps_share_error :
    (resourceKongTargetUpdate sampleFmt sampleTarget brokenClient).requests.length = 1 ∧
    (resourceKongTargetUpdate sampleFmt sampleTarget createRefusedClient).requests.length = 2 ∧
    (resourceKongTargetUpdate sampleFmt sampleTarget brokenClient).err
      = some "unexpected status code received: 500 Internal Server Error" ∧
    (resourceKongTargetUpdate sampleFmt sampleTarget createRefusedClient).err
      = some "unexpected status code received: 500 Internal Server Error" ∧
    (resourceKongTargetUpdate sampleFmt sampleTarget brokenClient).err
      = (resourceKongTargetUpdate sampleFmt sampleTarget createRefusedClient).err := by
  decide

/-- C4 as amended: the error of a failed update is built from the failure, not
from the step. Let one update fail at its delete step (the DELETE returned an
error or a status other than 204) and another fail at its create step (its
DELETE answered 204, its POST returned an error or a status that is neither
204 nor 201). When the two failures have the same error text, or are both
statuses with the same status line, the two updates return the same error:
the one `fmt.Errorf` builds from "error while updating target" followed by the
error text, respectively from "unexpected status code received: " followed by
the status line. -/
theorem targetUpdate_error_ignores_step (fmt : Fmt) (d d' : TargetData) (m m' : Client)
    (hdel : (targetDeleteAnswer d m).err ≠ none ∨
      (targetDeleteAnswer d m).resp.StatusCode ≠ StatusNoContent)
    (hpass : (targetDeleteAnswer d' m').err = none ∧
      (targetDeleteAnswer d' m').resp.StatusCode = StatusNoContent)
    (hcre : (targetUpdatePostAnswer d' m').err ≠ none ∨
      ((targetUpdatePostAnswer d' m').resp.StatusCode ≠ StatusNoContent ∧
       (targetUpdatePostAnswer d' m').resp.StatusCode ≠ StatusCreated))
    (hsame : (targetDeleteAnswer d m).err = (targetUpdatePostAnswer d' m').err ∧
      ((targetDeleteAnswer d m).err = none →
        (targetDeleteAnswer d m).resp.Status = (targetUpdatePostAnswer d' m').resp.Status)) :
    (resourceKongTargetUpdate fmt d m).err = (resourceKongTargetUpdate fmt d' m').err ∧
    (resourceKongTargetUpdate fmt d m).err =
      (match (targetDeleteAnswer d m).err with
       | some e => fmt.Errorf ("error while updating target" ++ e) []
       | none => fmt.Errorf ("unexpected status code received: " ++
          (targetDeleteAnswer d m).resp.Status) []) := by
  unfold resourceKongTargetUpdate
  simp only [targetDelete_request, targetPost_request]
  unfold targetDeleteAnswer targetUpdatePostAnswer at *
  generalize m.receiveNil [] _ = r1 at *
  generalize m'.receiveNil [] _ = r1' at *
  generalize m'.receiveTarget _ _ = r2' at *
  generalize m.receiveTarget _ _ = r2 at *
  obtain ⟨⟨c1, s1⟩, e1, v1⟩ := r1
  obtain ⟨⟨c1', s1'⟩, e1', v1'⟩ := r1'
  obtain ⟨⟨c2', s2'⟩, e2', v2'⟩ := r2'
  simp only at hdel hpass hcre hsame
  obtain ⟨he, hs⟩ := hsame
  obtain ⟨hp1, hp2⟩ := hpass
  subst he hp1 hp2
  cases e1 with
  | some e => simp
  | none =>
    have hs' : s1 = s2' := hs rfl
    subst hs'
    have h1 : c1 ≠ StatusNoContent := by simpa using hdel
    have h2 : c2' ≠ StatusNoContent := by
      rcases hcre with h | h
      · exact absurd rfl h
      · exact h.1
    simp [h1, h2]

/-- Witness for C4: an update whose DELETE answers 500 and an update whose
POST answers 500, on the same status line, return the same error. -/
theorem targetUpdate_error_ignores_step_witness :
    (resourceKongTargetUpdate sampleFmt sampleTarget brokenClient).err =
      (resourceKongTargetUpdate sampleFmt sampleTarget createRefusedClient).err ∧
    (resourceKongTargetUpdate sampleFmt sampleTarget brokenClient).err =
      (match (targetDeleteAnswer sampleTarget brokenClient).err with
       | some e => sampleFmt.Errorf ("error while updating target" ++ e) []
       | none => sampleFmt.Errorf ("unexpected status code received: " ++
          (targetDeleteAnswer sampleTarget brokenClient).resp.Status) []) :=
  targetUpdate_error_ignores_step sampleFmt sampleTarget sampleTarget brokenClient
    createRefusedClient (by decide) (by decide) (by decide) (by decide)

/-! ## Upstream create -/

/-- C6, the claim fails: the upstream was imported under the id `%zz`, which
is no valid URL escape, so `Path` keeps the URL it holds. The read sends its
GET to `upstreams/` under the base URL, not to `upstreams/%zz`. -/
theorem upstreamRead_odd_id_request :
    (resourceKongUpstreamRead sampleFmt oddUpstream strangerClient).requests =
      [⟨Method.GET, "http://kong:8001/upstreams/", none, none⟩] ∧
    (resourceKongUpstreamRead sampleFmt oddUpstream strangerClient).requests ≠
      [⟨Method.GET, "http://kong:8001/upstreams/%zz", none, none⟩] := by
  decide

/-- C6 as amended: let the GET the upstream read builds from the references
`upstreams/` and `{id}` have returned no error. The read issues that one
request and: on status 404 returns no error and sets the id to the empty
string, the other fields staying; on status 200 returns no error and sets id,
name and slots to the decoded record; on any other status returns an error and
leaves the resource data, the id included, as it was. Where `Path` appends the
two references to the URL, the GET goes to `upstreams/{id}` under the base
URL. -/
theorem upstreamRead_absence_is_not_an_error (fmt : Fmt) (d : UpstreamData) (m : Client)
    (h : (upstreamReadAnswer d m).err = none) :
    (resourceKongUpstreamRead fmt d m).requests = [upstreamGetRequest m d] ∧
    (upstreamGetRequest m d).method = Method.GET ∧
    (m.resolve m.rawURL "upstreams/" = m.rawURL ++ "upstreams/" →
      m.resolve (m.rawURL ++ "upstreams/") d.id = m.rawURL ++ "upstreams/" ++ d.id →
      upstreamGetRequest m d = ⟨Method.GET, m.rawURL ++ "upstreams/" ++ d.id, none, none⟩) ∧
    ((upstreamReadAnswer d m).resp.StatusCode = 404 →
      (resourceKongUpstreamRead fmt d m).err = none ∧
      (resourceKongUpstreamRead fmt d m).d = { d with id := "" }) ∧
    ((upstreamReadAnswer d m).resp.StatusCode = 200 →
      (resourceKongUpstreamRead fmt d m).err = none ∧
      (resourceKongUpstreamRead fmt d m).d =
        { id := (upstreamReadAnswer d m).successV.ID
          name := (upstreamReadAnswer d m).successV.Name
          slots := (upstreamReadAnswer d m).successV.Slots }) ∧
    ((upstreamReadAnswer d m).resp.StatusCode ≠ 404 →
      (upstreamReadAnswer d m).resp.StatusCode ≠ 200 →
      (resourceKongUpstreamRead fmt d m).err ≠ none ∧
      (resourceKongUpstreamRead fmt d m).d = d) := by
  refine ⟨?_, rfl, upstreamGetRequest_url m d, ?_⟩
  all_goals
    unfold resourceKongUpstreamRead
    simp only [upstreamGet_request]
    unfold upstreamReadAnswer at *
    generalize m.receiveUpstream [] _ = r at *
    obtain ⟨⟨c, s⟩, e, v⟩ := r
    simp only at h
    subst h
  · split_ifs <;> rfl
  · refine ⟨?_, ?_, ?_⟩
    · intro hc
      subst hc
      simp [StatusNotFound, UpstreamData.SetId]
    · intro hc
      subst hc
      simp [StatusNotFound, StatusOK, setUpstreamToResourceData, UpstreamData.SetId]
    · intro h1 h2
      simp [StatusNotFound, StatusOK, h1, h2, Fmt.Errorf]

/-- Witness for C6: reading `sampleUpstream` against a client that answers 404
sends the GET to `upstreams/u-1` under the base URL, returns no error and
clears the id. -/
theorem upstreamRead_absence_is_not_an_error_witness :
    (upstreamReadAnswer sampleUpstream goneClient).err = none ∧
    upstreamGetRequest goneClient sampleUpstream =
      ⟨Method.GET, "http://kong:8001/" ++ "upstreams/" ++ "u-1", none, none⟩ ∧
    (resourceKongUpstreamRead sampleFmt sampleUpstream goneClient).err = none ∧
    (resourceKongUpstreamRead sampleFmt sampleUpstream goneClient).d =
      { sampleUpstream with id := "" } :=
  ⟨by decide,
    (upstreamRead_absence_is_not_an_error sampleFmt sampleUpstream goneClient
      (by decide)).2.2.1 (by decide) (by decide),
    (upstreamRead_absence_is_not_an_error sampleFmt sampleUpstream goneClient
      (by decide)).2.2.2.1 (by decide)⟩

/-! ## Target read -/

/-- C7: given that the listing request returned no error, the target read
returns no error and sets the id to the empty string whenever the status is
404, or the decoded total is at most 0, or the decoded data list is empty;
and when the status is 200, the total is positive and the data list is
`x :: xs`, it returns no error and sets id, target and weight from `x`,
whatever `xs` is. -/
theorem targetRead_absence_and_first_match (fmt : Fmt) (d : TargetData) (m : Client)
    (h : (targetReadAnswer d m).err = none) :
    (((targetReadAnswer d m).resp.StatusCode = 404 ∨
        (targetReadAnswer d m).successV.Total ≤ 0 ∨
        (targetReadAnswer d m).successV.Data = []) →
      (resourceKongTargetRead fmt d m).err = none ∧
      (resourceKongTargetRead fmt d m).d.id = "") ∧
    (∀ (x : TargetResponse) (xs : List TargetResponse),
      (targetReadAnswer d m).resp.StatusCode = 200 →
      0 < (targetReadAnswer d m).successV.Total →
      (targetReadAnswer d m).successV.Data = x :: xs →
      (resourceKongTargetRead fmt d m).err = none ∧
      (resourceKongTargetRead fmt d m).d.id = x.ID ∧
      (resourceKongTargetRead fmt d m).d.target = x.Target ∧
      (resourceKongTargetRead fmt d m).d.weight = x.Weight) := by
  rw [targetRead_eq]
  generalize targetReadAnswer d m = r at *
  obtain ⟨⟨c, s⟩, e, ⟨total, data⟩⟩ := r
  simp only at h
  subst h
  constructor
  · intro hc
    have hguard : c = StatusNotFound ∨ total ≤ 0 ∨ data.length ≤ 0 := by
      rcases hc with hc | hc | hc
      · exact Or.inl hc
      · exact Or.inr (Or.inl hc)
      · exact Or.inr (Or.inr (by simp only at hc; simp [hc]))
    dsimp only
    rw [if_pos hguard]
    simp [TargetData.SetId]
  · intro x xs hc ht hd
    simp only at hc ht hd
    subst hc hd
    have hguard : ¬ ((200 : Int) = StatusNotFound ∨ total ≤ 0 ∨ (x :: xs).length ≤ 0) := by
      simp [StatusNotFound, ht]
    dsimp only
    rw [if_neg hguard]
    simp [StatusOK, setTargetToResourceData, TargetData.SetId]

/-- Witness for C7: reading `sampleTarget` against the healthy client, whose
listing answers 200 with total 1 and the one record `listedTarget`, returns no
error and takes id, target and weight from that record. -/
theorem targetRead_absence_and_first_match_witness :
    (targetReadAnswer sampleTarget healthyClient).err = none ∧
    (resourceKongTargetRead sampleFmt sampleTarget healthyClient).err = none ∧
    (resourceKongTargetRead sampleFmt sampleTarget healthyClient).d.id = listedTarget.ID ∧
    (resourceKongTargetRead sampleFmt sampleTarget healthyClient).d.target
      = listedTarget.Target ∧
    (resourceKongTargetRead sampleFmt sampleTarget healthyClient).d.weight
      = listedTarget.Weight :=
  ⟨by decide,
    (targetRead_absence_and_first_match sampleFmt sampleTarget healthyClient (by decide)).2
      listedTarget [] (by decide) (by decide) (by decide)⟩

/-- When the listing request returned no error, the target read returns an
error exactly when the status is neither 404 nor 200 and the decoded listing
has a positive total and a non-empty data list. -/
theorem targetRead_error_iff (fmt : Fmt) (d : TargetData) (m : Client)
    (h : (targetReadAnswer d m).err = none) :
    (resourceKongTargetRead fmt d m).err ≠ none ↔
      ((targetReadAnswer d m).resp.StatusCode ≠ 404 ∧
       (targetReadAnswer d m).resp.StatusCode ≠ 200 ∧
       0 < (targetReadAnswer d m).successV.Total ∧
       (targetReadAnswer d m).successV.Data ≠ []) := by
  rw [targetRead_eq]
  generalize targetReadAnswer d m = r at *
  obtain ⟨⟨c, s⟩, e, ⟨total, data⟩⟩ := r
  simp only at h
  subst h
  dsimp only
  by_cases h1 : c = 404
  · simp [h1, StatusNotFound]
  · by_cases h2 : total ≤ 0
    · simp [h2]
    · by_cases h3 : data = []
      · simp [h3]
      · by_cases h4 : c = 200
        · simp [h1, h2, h3, h4, StatusNotFound, StatusOK]
        · have h5 : 0 < total := by omega
          simp [h1, h2, h3, h4, h5, StatusNotFound, StatusOK, Fmt.Errorf]

/-! ## Delete -/

/-- C8, the claim fails: with the id `%zz`, respectively the upstream `%zz`,
which is no valid URL escape, `Path` keeps the URL it holds. The upstream
delete sends its DELETE to `upstreams/` under the base URL, not to
`upstreams/%zz`, and the target delete sends its DELETE to the base URL, not
to `upstreams/%zz/targets/t-old`. -/
theorem delete_odd_id_requests :
    (resourceKongUpstreamDelete sampleFmt oddUpstream strangerClient).requests =
      [⟨Method.DELETE, "http://kong:8001/upstreams/", none, none⟩] ∧
    (resourceKongUpstreamDelete sampleFmt oddUpstream strangerClient).requests ≠
      [⟨Method.DELETE, "http://kong:8001/upstreams/%zz", none, none⟩] ∧
    (resourceKongTargetDelete sampleFmt oddTarget strangerClient).requests =
      [⟨Method.DELETE, "http://kong:8001/", none, none⟩] ∧
    (resourceKongTargetDelete sampleFmt oddTarget strangerClient).requests ≠
      [⟨Method.DELETE, "http://kong:8001/upstreams/%zz/targets/t-old", none, none⟩] := by
  decide

/-- C8 as amended: the upstream delete issues exactly one request, the DELETE
it builds from the references `upstreams/` and `{id}`, and the target delete
exactly one, the DELETE it builds from the reference
`upstreams/{upstream}/targets/{id}`; each returns no error if and only if that
request returned no error with status 204. Both are total functions, so on any
other answer the result is an error value. Where `Path` appends these
references to the URL, the requests go to `upstreams/{id}`, respectively
`upstreams/{upstream}/targets/{id}`, under the base URL. -/
theorem delete_succeeds_exactly_on_no_content (fmt : Fmt) (du : UpstreamData)
    (dt : TargetData) (m : Client) :
    (resourceKongUpstreamDelete fmt du m).requests = [upstreamDeleteRequest m du] ∧
    (upstreamDeleteRequest m du).method = Method.DELETE ∧
    ((resourceKongUpstreamDelete fmt du m).err = none ↔
      ((upstreamDeleteAnswer du m).err = none ∧
       (upstreamDeleteAnswer du m).resp.StatusCode = 204)) ∧
    (m.resolve m.rawURL "upstreams/" = m.rawURL ++ "upstreams/" →
      m.resolve (m.rawURL ++ "upstreams/") du.id = m.rawURL ++ "upstreams/" ++ du.id →
      upstreamDeleteRequest m du =
        ⟨Method.DELETE, m.rawURL ++ "upstreams/" ++ du.id, none, none⟩) ∧
    (resourceKongTargetDelete fmt dt m).requests = [targetDeleteRequest m dt] ∧
    (targetDeleteRequest m dt).method = Method.DELETE ∧
    ((resourceKongTargetDelete fmt dt m).err = none ↔
      ((targetDeleteAnswer dt m).err = none ∧
       (targetDeleteAnswer dt m).resp.StatusCode = 204)) ∧
    (m.resolve m.rawURL ("upstreams/" ++ dt.upstream ++ "/targets/" ++ dt.id) =
        m.rawURL ++ ("upstreams/" ++ dt.upstream ++ "/targets/" ++ dt.id) →
      targetDeleteRequest m dt =
        ⟨Method.DELETE, m.rawURL ++ ("upstreams/" ++ dt.upstream ++ "/targets/" ++ dt.id),
          none, none⟩) := by
  refine ⟨?_, rfl, ?_, upstreamDeleteRequest_url m du, ?_, rfl, ?_,
    targetDeleteRequest_url m dt⟩
  · unfold resourceKongUpstreamDelete
    simp only [upstreamDelete_request]
    generalize m.receiveNil [] _ = r
    obtain ⟨⟨c, s⟩, e, v⟩ := r
    cases e <;> by_cases h1 : c = StatusNoContent <;> simp [h1]
  · unfold resourceKongUpstreamDelete
    simp only [upstreamDelete_request]
    unfold upstreamDeleteAnswer
    generalize m.receiveNil [] _ = r
    obtain ⟨⟨c, s⟩, e, v⟩ := r
    cases e <;> by_cases h1 : c = 204 <;> simp [h1, Fmt.Errorf, StatusNoContent]
  · unfold resourceKongTargetDelete
    simp only [targetDelete_request]
    generalize m.receiveNil [] _ = r
    obtain ⟨⟨c, s⟩, e, v⟩ := r
    cases e <;> by_cases h1 : c = StatusNoContent <;> simp [h1]
  · unfold resourceKongTargetDelete
    simp only [targetDelete_request]
    unfold targetDeleteAnswer
    generalize m.receiveNil [] _ = r
    obtain ⟨⟨c, s⟩, e, v⟩ := r
    cases e <;> by_cases h1 : c = 204 <;> simp [h1, Fmt.Errorf, StatusNoContent]

/-- Witness for C8: deleting `sampleUpstream` and `sampleTarget` against the
healthy client, whose `Path` appends the references and whose DELETE answers
204, sends the one DELETE to `upstreams/u-1`, respectively
`upstreams/svc-a/targets/t-old`, under the base URL and returns no error. -/
theorem delete_succeeds_exactly_on_no_content_witness :
    upstreamDeleteRequest healthyClient sampleUpstream =
      ⟨Method.DELETE, "http://kong:8001/" ++ "upstreams/" ++ "u-1", none, none⟩ ∧
    (resourceKongUpstreamDelete sampleFmt sampleUpstream healthyClient).err = none ∧
    targetDeleteRequest healthyClient sampleTarget =
      ⟨Method.DELETE, "http://kong:8001/" ++ ("upstreams/" ++ "svc-a" ++ "/targets/" ++ "t-old"),
        none, none⟩ ∧
    (resourceKongTargetDelete sampleFmt sampleTarget healthyClient).err = none :=
  ⟨(delete_succeeds_exactly_on_no_content sampleFmt sampleUpstream sampleTarget
      healthyClient).2.2.2.1 (by decide) (by decide),
    (delete_succeeds_exactly_on_no_content sampleFmt sampleUpstream sampleTarget
      healthyClient).2.2.1.mpr (by decide),
    (delete_succeeds_exactly_on_no_content sampleFmt sampleUpstream sampleTarget
      healthyClient).2.2.2.2.2.2.2 (by decide),
    (delete_succeeds_exactly_on_no_content sampleFmt sampleUpstream sampleTarget
      healthyClient).2.2.2.2.2.2.1.mpr (by decide)⟩

/-! ## The upstream field of a target -/

/-- C9, the claim fails: the target is declared under the upstream named
`svc-a` and the server answers with the upstream id `u-1`. After a successful
create and after a read that finds the target, the upstream field of the
resource data is `u-1`. After an update that returns no error, which takes a
POST answered 204 and so nothing decoded, the upstream field is empty. -/
theorem target_upstream_is_overwritten :
    freshTarget.upstream = "svc-a" ∧
    (resourceKongTargetCreate sampleFmt freshTarget healthyClient).err = none ∧
    (resourceKongTargetCreate sampleFmt freshTarget healthyClient).d.upstream = "u-1" ∧
    sampleTarget.upstream = "svc-a" ∧
    (resourceKongTargetRead sampleFmt sampleTarget healthyClient).err = none ∧
    (resourceKongTargetRead sampleFmt sampleTarget healthyClient).d.id = "t-old" ∧
    (resourceKongTargetRead sampleFmt sampleTarget healthyClient).d.upstream = "u-1" ∧
    (resourceKongTargetUpdate sampleFmt sampleTarget emptyAnswerClient).err = none ∧
    (resourceKongTargetUpdate sampleFmt sampleTarget emptyAnswerClient).d.upstream = "" ∧
    (resourceKongTargetCreate sampleFmt freshTarget healthyClient).d.upstream
      ≠ freshTarget.upstream ∧
    (resourceKongTargetRead sampleFmt sampleTarget healthyClient).d.upstream
      ≠ sampleTarget.upstream ∧
    (resourceKongTargetUpdate sampleFmt sampleTarget emptyAnswerClient).d.upstream
      ≠ sampleTarget.upstream := by
  decide

/-- C9 as amended: after a create that returns no error, after a read that
finds the target (no error from the request, status 200, positive total, data
`x :: xs`) and after an update that returns no error, the upstream field of the
resource data equals the `Upstream` field, the JSON `upstream_id`, of the
success struct: that of the POST answer for create and update, of `x` for the
read. -/
theorem target_upstream_follows_response (fmt : Fmt) (d : TargetData) (m : Client) :
    ((resourceKongTargetCreate fmt d m).err = none →
      (resourceKongTargetCreate fmt d m).d.upstream =
        (targetCreateAnswer d m).successV.Upstream) ∧
    (∀ (x : TargetResponse) (xs : List TargetResponse),
      (targetReadAnswer d m).err = none →
      (targetReadAnswer d m).resp.StatusCode = 200 →
      0 < (targetReadAnswer d m).successV.Total →
      (targetReadAnswer d m).successV.Data = x :: xs →
      (resourceKongTargetRead fmt d m).err = none ∧
      (resourceKongTargetRead fmt d m).d.upstream = x.Upstream) ∧
    ((resourceKongTargetUpdate fmt d m).err = none →
      (resourceKongTargetUpdate fmt d m).d.upstream =
        (targetUpdatePostAnswer d m).successV.Upstream) := by
  refine ⟨?_, ?_, ?_⟩
  · unfold resourceKongTargetCreate
    simp only [targetPost_request]
    unfold targetCreateAnswer
    generalize m.receiveTarget [] _ = r
    obtain ⟨⟨c, s⟩, e, v⟩ := r
    cases e <;> by_cases h1 : c = StatusCreated <;>
      simp [h1, Fmt.Errorf, setTargetToResourceData, TargetData.SetId]
  · intro x xs h hc ht hd
    rw [targetRead_eq]
    generalize targetReadAnswer d m = r at *
    obtain ⟨⟨c, s⟩, e, ⟨total, data⟩⟩ := r
    simp only at h hc ht hd
    subst h hc hd
    have hguard : ¬ ((200 : Int) = StatusNotFound ∨ total ≤ 0 ∨ (x :: xs).length ≤ 0) := by
      simp [StatusNotFound, ht]
    dsimp only
    rw [if_neg hguard]
    simp [StatusOK, setTargetToResourceData, TargetData.SetId]
  · unfold resourceKongTargetUpdate
    simp only [targetDelete_request, targetPost_request]
    unfold targetUpdatePostAnswer
    generalize m.receiveNil [] _ = r1
    generalize m.receiveTarget _ _ = r2
    obtain ⟨⟨c1, s1⟩, e1, v1⟩ := r1
    obtain ⟨⟨c2, s2⟩, e2, v2⟩ := r2
    cases e1 <;> cases e2 <;> by_cases h1 : c1 = StatusNoContent <;>
      by_cases h2 : c2 = StatusNoContent <;>
      simp [h1, h2, Fmt.Errorf, setTargetToResourceData, TargetData.SetId]

/-- Witness for C9: creating `freshTarget` against the healthy client returns
no error and leaves in the upstream field the `upstream_id` of the answer;
updating `sampleTarget` against a client whose POST answers 204 returns no
error and leaves the upstream field of the empty success struct. -/
theorem target_upstream_follows_response_witness :
    (resourceKongTargetCreate sampleFmt freshTarget healthyClient).err = none ∧
    (resourceKongTargetCreate sampleFmt freshTarget healthyClient).d.upstream =
      (targetCreateAnswer freshTarget healthyClient).successV.Upstream ∧
    (resourceKongTargetUpdate sampleFmt sampleTarget emptyAnswerClient).err = none ∧
    (resourceKongTargetUpdate sampleFmt sampleTarget emptyAnswerClient).d.upstream =
      (targetUpdatePostAnswer sampleTarget emptyAnswerClient).successV.Upstream :=
  ⟨by decide,
    (target_upstream_follows_response sampleFmt freshTarget healthyClient).1 (by decide),
    by decide,
    (target_upstream_follows_response sampleFmt sampleTarget emptyAnswerClient).2.2
      (by decide)⟩

/-! ## Errors and the resource data -/

/-- C10: whenever one of the eight resource functions returns an error, the
resource data after the call, the id and every field, is the resource data
before the call. This covers an update of a target whose DELETE answered 204
and whose create step failed: the error is returned with the old id still in
the resource data. -/
theorem errors_leave_resource_data (fmt : Fmt) (du : UpstreamData) (dt : TargetData)
    (m : Client) :
    ((resourceKongUpstreamCreate fmt du m).err ≠ none →
      (resourceKongUpstreamCreate fmt du m).d = du) ∧
    ((resourceKongUpstreamRead fmt du m).err ≠ none →
      (resourceKongUpstreamRead fmt du m).d = du) ∧
    ((resourceKongUpstreamUpdate fmt du m).err ≠ none →
      (resourceKongUpstreamUpdate fmt du m).d = du) ∧
    ((resourceKongUpstreamDelete fmt du m).err ≠ none →
      (resourceKongUpstreamDelete fmt du m).d = du) ∧
    ((resourceKongTargetCreate fmt dt m).err ≠ none →
      (resourceKongTargetCreate fmt dt m).d = dt) ∧
    ((resourceKongTargetRead fmt dt m).err ≠ none →
      (resourceKongTargetRead fmt dt m).d = dt) ∧
    ((resourceKongTargetUpdate fmt dt m).err ≠ none →
      (resourceKongTargetUpdate fmt dt m).d = dt) ∧
    ((resourceKongTargetDelete fmt dt m).err ≠ none →
      (resourceKongTargetDelete fmt dt m).d = dt) := by
  refine ⟨?_, ?_, ?_, ?_, ?_, ?_, ?_, ?_⟩
  · unfold resourceKongUpstreamCreate
    dsimp only
    generalize m.receiveUpstream [] _ = r
    obtain ⟨⟨c, s⟩, e, v⟩ := r
    cases e with
    | some e => simp
    | none =>
      dsimp only
      split_ifs <;> simp
  · unfold resourceKongUpstreamRead
    dsimp only
    generalize m.receiveUpstream [] _ = r
    obtain ⟨⟨c, s⟩, e, v⟩ := r
    cases e with
    | some e => simp
    | none =>
      dsimp only
      split_ifs <;> simp
  · unfold resourceKongUpstreamUpdate
    dsimp only
    generalize m.receiveUpstream [] _ = r
    obtain ⟨⟨c, s⟩, e, v⟩ := r
    cases e <;> by_cases h2 : c = StatusOK <;> simp [h2]
  · unfold resourceKongUpstreamDelete
    dsimp only
    generalize m.receiveNil [] _ = r
    obtain ⟨⟨c, s⟩, e, v⟩ := r
    cases e <;> by_cases h2 : c = StatusNoContent <;> simp [h2]
  · unfold resourceKongTargetCreate
    dsimp only
    generalize m.receiveTarget [] _ = r
    obtain ⟨⟨c, s⟩, e, v⟩ := r
    cases e <;> by_cases h2 : c = StatusCreated <;> simp [h2]
  · rw [targetRead_eq]
    generalize targetReadAnswer dt m = r
    obtain ⟨⟨c, s⟩, e, ⟨total, data⟩⟩ := r
    cases e with
    | some e => simp
    | none =>
      dsimp only
      split_ifs <;> simp
  · unfold resourceKongTargetUpdate
    dsimp only
    generalize m.receiveNil [] _ = r1
    generalize m.receiveTarget _ _ = r2
    obtain ⟨⟨c1, s1⟩, e1, v1⟩ := r1
    obtain ⟨⟨c2, s2⟩, e2, v2⟩ := r2
    cases e1 <;> cases e2 <;> by_cases h1 : c1 = StatusNoContent <;>
      by_cases h2 : c2 = StatusNoContent <;> simp [h1, h2]
  · unfold resourceKongTargetDelete
    dsimp only
    generalize m.receiveNil [] _ = r
    obtain ⟨⟨c, s⟩, e, v⟩ := r
    cases e <;> by_cases h2 : c = StatusNoContent <;> simp [h2]

/-- Witness for C10: the update of `sampleTarget` against a client whose
DELETE answers 204 and whose POST fails issues both requests, returns an error
and leaves the resource data on the old id. -/
theorem errors_leave_resource_data_witness :
    (resourceKongTargetUpdate sampleFmt sampleTarget createFailsClient).requests.length = 2 ∧
    (resourceKongTargetUpdate sampleFmt sampleTarget createFailsClient).err ≠ none ∧
    (resourceKongTargetUpdate sampleFmt sampleTarget createFailsClient).d = sampleTarget ∧
    sampleTarget.id = "t-old" :=
  ⟨by decide, by decide,
    (errors_leave_resource_data sampleFmt sampleUpstream sampleTarget
      createFailsClient).2.2.2.2.2.2.1 (by decide), by decide⟩

end Kong
